import Mathlib

/-!
Verification of the session/result-addressing core of the arXiv Gemini App.

The Python source is shallowly embedded: feedparser entries and feeds become
structures with `Option` fields mirroring `dict.get` defaults, the mutable
`AppState` becomes an explicit record threaded through command functions, and
every remote call (arXiv search, PDF fetch, Gemini upload/refresh) becomes an
oracle parameter.  Command handlers additionally return instrumentation
(fetch counts, event traces) so that claims about which remote calls happen
can be stated.
-/

namespace ArxivApp

/-- One author entry as parsed by feedparser; `name` mirrors
`author.get("name", ...)` (single-quoted in the source). -/
structure Author where
  name : Option String
deriving DecidableEq

/-- One link entry of a feed entry; fields mirror the `get` calls on
`title`, `type` and `href`. -/
structure Link where
  title : Option String
  ltype : Option String
  href : Option String
deriving DecidableEq

/-- One paper entry as parsed by feedparser; `Option` encodes a possibly
missing key, so `entry.get(k, d)` becomes `(e.k).getD d`. -/
structure Entry where
  id : Option String
  title : Option String
  link : Option String
  published : Option String
  authors : Option (List Author)
  arxiv_doi : Option String
  arxiv_journal_ref : Option String
  links : Option (List Link)
deriving DecidableEq

/-- One parsed result feed: pagination metadata from `feed.feed.get(...)`
plus the entry list (`feed.entries`). -/
structure Feed where
  startindex : Option Int
  totalresults : Option Int
  entries : List Entry
deriving DecidableEq

/-- A Gemini File API handle: its remote name and the value of
`file.state.name` (a string such as "ACTIVE", "PROCESSING", "FAILED"). -/
structure GeminiFile where
  name : String
  state_name : String
deriving DecidableEq

/-- Association-list lookup, modelling Python dict indexing / `in`. -/
def lookupD {α β : Type} [DecidableEq α] : List (α × β) → α → Option β
  | [], _ => none
  | (k, v) :: rest, a => if k = a then some v else lookupD rest a

/-- Association-list insert, modelling `d[k] = v` (update in place or append). -/
def insertD {α β : Type} [DecidableEq α] : List (α × β) → α → β → List (α × β)
  | [], k, v => [(k, v)]
  | (k0, v0) :: rest, k, v =>
    if k0 = k then (k, v) :: rest else (k0, v0) :: insertD rest k v

/-- Association-list removal, modelling `d.pop(k, None)` / `del d[k]`. -/
def eraseD {α β : Type} [DecidableEq α] : List (α × β) → α → List (α × β)
  | [], _ => []
  | (k0, v0) :: rest, k =>
    if k0 = k then eraseD rest k else (k0, v0) :: eraseD rest k

/-- The mutable application state of `AppState.__init__` in main.py. -/
structure AppState where
  current_query : String
  current_start_index : Int
  current_max_results : Int
  current_sort_by : String
  current_sort_order : String
  last_results_feed : Option Feed
  total_results_count : Int
  gemini_enabled : Bool
  serper_enabled : Bool
  downloaded_pdfs : List (Int × String)
  gemini_uploaded_files : List (String × GeminiFile)
  gemini_model_name : String
deriving DecidableEq

/-- Embedding of `_get_entry_from_results` (main.py lines 49-58): returns
`none` for a missing/empty feed, otherwise indexes the page by
`display_index - 1 - opensearch_startindex`. -/
def getEntryFromResults (results_feed : Option Feed) (display_index : Int) :
    Option Entry :=
  match results_feed with
  | none => none
  | some f =>
    if f.entries = [] then none
    else
      let current_page_start : Int := f.startindex.getD 0
      let entry_index : Int := display_index - 1 - current_page_start
      if 0 ≤ entry_index ∧ entry_index < (f.entries.length : Int) then
        f.entries.get? entry_index.toNat
      else none

/-- The session-level view of `_get_entry_from_results`: it reads
`state.last_results_feed` and performs no mutation, so the embedded
operation returns the state unchanged by construction. -/
def resolve (state : AppState) (display_number : Int) :
    Option Entry × AppState :=
  (getEntryFromResults state.last_results_feed display_number, state)

/-- C1: `resolve(display_number)` returns NotFound (`none`) when no
ResultPage is loaded or when `index = display_number - 1 - page_start_offset`
lies outside `[0, len(records))`; otherwise it returns the record at
position `index` of the current page; and it never changes the session
state. -/
theorem resolve_characterization (s : AppState) (f : Feed) (n : Int)
    (hf : s.last_results_feed = some f) :
    ((resolve s n).2 = s)
    ∧ (∀ s0 : AppState, s0.last_results_feed = none → (resolve s0 n).1 = none)
    ∧ ((n - 1 - f.startindex.getD 0 < 0
        ∨ (f.entries.length : Int) ≤ n - 1 - f.startindex.getD 0) →
        (resolve s n).1 = none)
    ∧ (0 ≤ n - 1 - f.startindex.getD 0 →
        n - 1 - f.startindex.getD 0 < (f.entries.length : Int) →
        (resolve s n).1 = f.entries.get? (n - 1 - f.startindex.getD 0).toNat) := by
  refine ⟨rfl, ?_, ?_, ?_⟩
  · intro s0 h0
    simp [resolve, getEntryFromResults, h0]
  · intro hout
    simp only [resolve, getEntryFromResults, hf]
    by_cases hemp : f.entries = []
    · simp [hemp]
    · simp only [hemp, if_false]
      rw [if_neg]
      omega
  · intro h0 h1
    simp only [resolve, getEntryFromResults, hf]
    have hemp : f.entries ≠ [] := by
      intro hcon
      rw [hcon] at h1
      simp at h1
      omega
    simp only [hemp, if_false]
    rw [if_pos ⟨h0, h1⟩]

/-- A concrete entry used by witnesses. -/
def sampleEntry : Entry :=
  { id := some "http://arxiv.org/abs/1234.5678v1"
    title := some "Sample Paper"
    link := some "http://arxiv.org/abs/1234.5678v1"
    published := some "2023-01-15T12:34:56Z"
    authors := some [{ name := some "Ada Lovelace" }]
    arxiv_doi := none
    arxiv_journal_ref := none
    links := some [{ title := some "pdf", ltype := some "application/pdf",
                     href := some "http://arxiv.org/pdf/1234.5678v1" }] }

/-- A concrete one-entry feed used by witnesses. -/
def sampleFeed : Feed :=
  { startindex := some 0, totalresults := some 10, entries := [sampleEntry] }

/-- A concrete session state used by witnesses. -/
def sampleState : AppState :=
  { current_query := "graph neural networks"
    current_start_index := 0
    current_max_results := 10
    current_sort_by := "submittedDate"
    current_sort_order := "descending"
    last_results_feed := some sampleFeed
    total_results_count := 10
    gemini_enabled := true
    serper_enabled := false
    downloaded_pdfs := []
    gemini_uploaded_files := []
    gemini_model_name := "gemini-2.5-pro-exp-03-25" }

/-- Witness for C1 at a concrete state: display number 1 resolves to the
single entry of the page, display number 2 is out of range. -/
theorem resolve_characterization_witness :
    (resolve sampleState 1).2 = sampleState
    ∧ (resolve sampleState 1).1 = some sampleEntry
    ∧ (resolve sampleState 2).1 = none := by
  have h1 := resolve_characterization sampleState sampleFeed 1 rfl
  have h2 := resolve_characterization sampleState sampleFeed 2 rfl
  refine ⟨h1.1, ?_, ?_⟩
  · have := h1.2.2.2 (by decide) (by decide)
    simpa [sampleFeed] using this
  · exact h2.2.2.1 (by decide)

/-- The signature of `arxiv_client.search_arxiv` as seen from the command
loop: query, start, max_results, sort_by, sort_order, returning a parsed
feed or `none` on any failure path. -/
def SearchOracle : Type := String → Int → Int → String → String → Option Feed

/-- Embedding of the interactive `q` (query) command (main.py lines
170-182): a non-empty query replaces the query, resets the offset, clears
both caches, then fetches page 0; the total count comes from the response
metadata, or 0 on a failed fetch. -/
def queryCommand (state : AppState) (new_query : String)
    (search : SearchOracle) : AppState :=
  if new_query = "" then state
  else
    let s1 := { state with
      current_query := new_query
      current_start_index := 0
      downloaded_pdfs := []
      gemini_uploaded_files := [] }
    let fed := search new_query 0 s1.current_max_results s1.current_sort_by
      s1.current_sort_order
    let s2 := { s1 with last_results_feed := fed }
    match fed with
    | some f => { s2 with total_results_count := f.totalresults.getD 0 }
    | none => { s2 with total_results_count := 0 }

/-- C2: executing the query command with a non-empty query string always
empties the downloaded-PDF map and the uploaded-file map and resets the
page offset to 0 — for every prior state (including one whose
`current_query` is textually identical to the new query) and for every
outcome of the index fetch (including failure). -/
theorem queryCommand_clears_caches (state : AppState) (new_query : String)
    (search : SearchOracle) (hq : new_query ≠ "") :
    (queryCommand state new_query search).downloaded_pdfs = []
    ∧ (queryCommand state new_query search).gemini_uploaded_files = []
    ∧ (queryCommand state new_query search).current_start_index = 0 := by
  unfold queryCommand
  rw [if_neg hq]
  cases hfed : search new_query 0 state.current_max_results
      state.current_sort_by state.current_sort_order with
  | none => simp [hfed]
  | some f => simp [hfed]

/-- Witness for C2: a state that already holds the same query, a download
and an upload, refreshed through a failing fetch, still ends with empty
maps and offset 0. -/
theorem queryCommand_clears_caches_witness :
    let dirty := { sampleState with
      downloaded_pdfs := [(1, "arxiv_downloads/1234.5678v1.pdf")]
      gemini_uploaded_files :=
        [("arxiv_downloads/1234.5678v1.pdf",
          { name := "files/abc", state_name := "ACTIVE" })]
      current_start_index := 10 }
    (queryCommand dirty "graph neural networks"
        (fun _ _ _ _ _ => none)).downloaded_pdfs = []
    ∧ (queryCommand dirty "graph neural networks"
        (fun _ _ _ _ _ => none)).gemini_uploaded_files = []
    ∧ (queryCommand dirty "graph neural networks"
        (fun _ _ _ _ _ => none)).current_start_index = 0 :=
  queryCommand_clears_caches _ "graph neural networks"
    (fun _ _ _ _ _ => none) (by decide)

/-- Outcome of one execution of the interactive `n` (next page) command. -/
inductive NextPageOutcome
  | noActiveQuery
  | noPreviousResults
  | alreadyAtEnd
  | pageFetched
  | unexpectedError
deriving DecidableEq

/-- Embedding of the interactive `n` (next page) command (main.py lines
184-195).  Returns the outcome, the state after the command, and the
number of index fetches performed.

The failure branch is embedded exactly as the source executes: after a
failed fetch `state.last_results_feed` is already `None`, so the rollback
statement `state.current_start_index -= len(state.last_results_feed.entries)`
raises AttributeError before assigning; the generic handler of the loop catches
it (`unexpectedError`), leaving the offset advanced and the feed `none`. -/
def nextPageCommand (state : AppState) (search : SearchOracle) :
    NextPageOutcome × AppState × Nat :=
  if state.current_query = "" then (.noActiveQuery, state, 0)
  else
    match state.last_results_feed with
    | none => (.noPreviousResults, state, 0)
    | some f =>
      if f.entries = [] then (.noPreviousResults, state, 0)
      else if state.total_results_count ≤
          state.current_start_index + (f.entries.length : Int) then
        (.alreadyAtEnd, state, 0)
      else
        let newStart := state.current_start_index + (f.entries.length : Int)
        let fed := search state.current_query newStart
          state.current_max_results state.current_sort_by
          state.current_sort_order
        let s1 := { state with
          current_start_index := newStart
          last_results_feed := fed }
        match fed with
        | some nf =>
          (.pageFetched, { s1 with total_results_count := nf.totalresults.getD 0 }, 1)
        | none => (.unexpectedError, s1, 1)

/-- C3: with an active query and a non-empty last page, `nextPage` at
`offset + lastPageLen ≥ total` answers EndOfResults, performs no index
fetch, and returns the state unchanged (offset, ResultPage and both maps
included). -/
theorem nextPage_endOfResults (state : AppState) (f : Feed)
    (search : SearchOracle)
    (hq : state.current_query ≠ "")
    (hf : state.last_results_feed = some f)
    (hne : f.entries ≠ [])
    (hend : state.total_results_count ≤
      state.current_start_index + (f.entries.length : Int)) :
    nextPageCommand state search = (.alreadyAtEnd, state, 0) := by
  unfold nextPageCommand
  rw [if_neg hq, hf]
  simp only [hne, if_false, if_pos hend]

/-- Witness for C3: a concrete state sitting on its last page answers
EndOfResults with zero fetches, unchanged. -/
theorem nextPage_endOfResults_witness :
    let atEnd := { sampleState with total_results_count := 1 }
    nextPageCommand atEnd (fun _ _ _ _ _ => some sampleFeed)
      = (.alreadyAtEnd, atEnd, 0) :=
  nextPage_endOfResults _ sampleFeed _ (by decide) rfl (by decide) (by decide)

/-- C4 (code bug evaluation): from `sampleState` (offset 0, one-entry page,
total 10), a failed fetch leaves the offset advanced to 1 — not rolled back
to 0 — and the current ResultPage replaced by `none`, with the generic
`unexpectedError` outcome of the catch-all handler of the loop. -/
theorem nextPage_fetchFailure_noRollback :
    sampleState.current_start_index = 0
    ∧ (nextPageCommand sampleState (fun _ _ _ _ _ => none)).1
        = NextPageOutcome.unexpectedError
    ∧ (nextPageCommand sampleState (fun _ _ _ _ _ => none)).2.1.current_start_index = 1
    ∧ (nextPageCommand sampleState (fun _ _ _ _ _ => none)).2.1.last_results_feed
        = none := by
  refine ⟨rfl, ?_, ?_, ?_⟩ <;> rfl

/-- Embedding of the `set max [N]` branch (main.py lines 511-513).  The
argument is the result of Python `int(value_str)`: `none` when int()
raises ValueError (state untouched), otherwise the parsed integer, clamped
into [1, 2000] with the offset reset. -/
def setMaxCommand (state : AppState) (parsed : Option Int) : AppState :=
  match parsed with
  | none => state
  | some new_max =>
    { state with
      current_max_results := max 1 (min 2000 new_max)
      current_start_index := 0 }

/-- C9: after `set max N` the page size lies in [1, 2000] — below 1 clamps
to 1, above 2000 clamps to 2000, in-range values are taken as is — and the
offset resets to 0; a non-integer value leaves the state unchanged. -/
theorem setMax_clamps (state : AppState) (n : Int) :
    (1 ≤ (setMaxCommand state (some n)).current_max_results
      ∧ (setMaxCommand state (some n)).current_max_results ≤ 2000)
    ∧ (n < 1 → (setMaxCommand state (some n)).current_max_results = 1)
    ∧ (2000 < n → (setMaxCommand state (some n)).current_max_results = 2000)
    ∧ (1 ≤ n → n ≤ 2000 →
        (setMaxCommand state (some n)).current_max_results = n)
    ∧ (setMaxCommand state (some n)).current_start_index = 0
    ∧ setMaxCommand state none = state := by
  refine ⟨⟨?_, ?_⟩, ?_, ?_, ?_, rfl, rfl⟩ <;> simp [setMaxCommand] <;> omega

/-- Witness for C9 at concrete values: 0 clamps to 1, 5000 clamps to 2000,
50 is kept, and the offset resets. -/
theorem setMax_clamps_witness :
    (setMaxCommand sampleState (some 0)).current_max_results = 1
    ∧ (setMaxCommand sampleState (some 5000)).current_max_results = 2000
    ∧ (setMaxCommand sampleState (some 50)).current_max_results = 50
    ∧ (setMaxCommand sampleState (some 50)).current_start_index = 0
    ∧ setMaxCommand sampleState none = sampleState :=
  ⟨(setMax_clamps sampleState 0).2.1 (by decide),
   (setMax_clamps sampleState 5000).2.2.1 (by decide),
   (setMax_clamps sampleState 50).2.2.2.1 (by decide) (by decide),
   (setMax_clamps sampleState 50).2.2.2.2.1,
   (setMax_clamps sampleState 50).2.2.2.2.2⟩

/-- Fuel-based worker for Python str.split with a non-empty separator.
Written with explicit fuel (always at least the input length plus one) so
that it is structural and evaluates inside the kernel. -/
def pySplitAux (sep : List Char) : Nat → List Char → List Char → List (List Char)
  | 0, s, acc => [acc.reverse ++ s]
  | _ + 1, [], acc => [acc.reverse]
  | n + 1, c :: rest, acc =>
    if sep.isPrefixOf (c :: rest) then
      acc.reverse :: pySplitAux sep n ((c :: rest).drop sep.length) []
    else pySplitAux sep n rest (c :: acc)

/-- Python `s.split(sep)` for a non-empty separator. -/
def pySplit (sep s : String) : List String :=
  (pySplitAux sep.data (s.data.length + 1) s.data []).map String.mk

/-- Python `s.startswith(pre)`. -/
def pyStartsWith (pre s : String) : Bool :=
  pre.data.isPrefixOf s.data

/-- Python `s.endswith(suf)`. -/
def pyEndsWith (suf s : String) : Bool :=
  suf.data.isSuffixOf s.data

/-- One character of the filename sanitizer in `download_pdf`: keep
alphanumerics, dots and hyphens, replace everything else by an underscore
(`c if c.isalnum() or c in [".", "-"] else "_"`). -/
def sanitizeChar (c : Char) : Char :=
  if c.isAlphanum ∨ c = '.' ∨ c = '-' then c else '_'

/-- The filename sanitizer of `download_pdf` applied to a whole identifier. -/
def sanitizeId (s : String) : String :=
  String.mk (s.data.map sanitizeChar)

/-- `os.path.join(directory, filename)` for the relative filenames this
program produces (a sanitized id never starts with a slash). -/
def joinPath (directory filename : String) : String :=
  if directory = "" then filename
  else if pyEndsWith "/" directory then directory ++ filename
  else directory ++ "/" ++ filename

/-- The link-resolution loop of `download_pdf` (arxiv_client.py lines
131-136): an exact `title == "pdf"` match returns that href immediately
(even when the href key is missing, hence the `Option` result), while a
`type == "application/pdf"` match only records the href as a fallback and
keeps scanning. -/
def findPdfLink : List Link → Option String → Option String
  | [], acc => acc
  | l :: ls, acc =>
    if l.title = some "pdf" then l.href
    else if l.ltype = some "application/pdf" then findPdfLink ls l.href
    else findPdfLink ls acc

/-- `entry.get("id", "").split("/abs/")[-1]` from `download_pdf`. -/
def arxivIdFull (entry : Entry) : String :=
  (pySplit "/abs/" (entry.id.getD "")).getLastD ""

/-- `arxiv_id_full.split("v")[0]` from `download_pdf`. -/
def arxivIdBase (entry : Entry) : String :=
  (pySplit "v" (arxivIdFull entry)).headD ""

/-- The URL normalization of `download_pdf`: protocol-relative links get
an https scheme; any other form is attempted unchanged. -/
def normalizePdfLink (link : String) : String :=
  if pyStartsWith "//" link then "https:" ++ link else link

/-- The filesystem path `download_pdf` derives for an entry:
`os.path.join(directory, sanitized_full_id + ".pdf")`. -/
def derivedPdfPath (entry : Entry) (directory : String) : String :=
  joinPath directory (sanitizeId (arxivIdFull entry) ++ ".pdf")

/-- Embedding of `arxiv_client.download_pdf` (arxiv_client.py lines
112-204).  The local filesystem is the list `fs` of existing paths and the
network is the oracle `fetch` (URL to success flag).  Returns the result
path (or `none`), the filesystem afterwards, and the number of network
fetches performed.  A failed or timed-out fetch removes the partial file,
so the filesystem is unchanged on failure; an existing file short-circuits
before any network access. -/
def downloadPdf (entry : Entry) (directory : String) (fs : List String)
    (fetch : String → Bool) : Option String × List String × Nat :=
  if arxivIdBase entry = "" then (none, fs, 0)
  else
    match findPdfLink (entry.links.getD []) none with
    | none => (none, fs, 0)
    | some pdf_link =>
      if pdf_link = "" then (none, fs, 0)
      else
        let filepath := derivedPdfPath entry directory
        if filepath ∈ fs then (some filepath, fs, 0)
        else if fetch (normalizePdfLink pdf_link) then
          (some filepath, filepath :: fs, 1)
        else (none, fs, 1)

/-- C5 counterexample: downloading the same entry twice while the network
fails both times performs two network fetches, refuting "calling it twice
for the same display number without clearing state performs at most one
network fetch" as a universal statement. -/
theorem downloadPdf_twice_two_fetches :
    (downloadPdf sampleEntry "arxiv_downloads" [] (fun _ => false)).2.2
      + (downloadPdf sampleEntry "arxiv_downloads"
          (downloadPdf sampleEntry "arxiv_downloads" [] (fun _ => false)).2.1
          (fun _ => false)).2.2 = 2 := by
  decide

/-- C5 (amended): if the PDF file already exists at the derived target
path the download returns that path with the filesystem untouched and no
network fetch; and whenever a first call succeeds, a second call on the
resulting filesystem performs no network fetch and returns the same path
unchanged (so two calls make at most one fetch when the first succeeds). -/
theorem downloadPdf_idempotent (entry : Entry) (directory : String)
    (fs : List String) (fetch : String → Bool) :
    ((arxivIdBase entry ≠ "") →
      (∃ l, findPdfLink (entry.links.getD []) none = some l ∧ l ≠ "") →
      derivedPdfPath entry directory ∈ fs →
      downloadPdf entry directory fs fetch
        = (some (derivedPdfPath entry directory), fs, 0))
    ∧ (∀ p, (downloadPdf entry directory fs fetch).1 = some p →
        downloadPdf entry directory
            (downloadPdf entry directory fs fetch).2.1 fetch
          = (some p, (downloadPdf entry directory fs fetch).2.1, 0)) := by
  constructor
  · intro hbase hex hmem
    obtain ⟨l, hl, hlne⟩ := hex
    simp [downloadPdf, hbase, hl, hlne, hmem]
  · intro p hp
    by_cases hbase : arxivIdBase entry = ""
    · simp [downloadPdf, hbase] at hp
    cases hfl : findPdfLink (entry.links.getD []) none with
    | none => simp [downloadPdf, hbase, hfl] at hp
    | some l =>
      by_cases hlne : l = ""
      · simp [downloadPdf, hbase, hfl, hlne] at hp
      by_cases hmem : derivedPdfPath entry directory ∈ fs
      · have h1 : downloadPdf entry directory fs fetch
            = (some (derivedPdfPath entry directory), fs, 0) := by
          simp [downloadPdf, hbase, hfl, hlne, hmem]
        rw [h1] at hp
        simp only [Option.some.injEq] at hp
        subst hp
        rw [h1]
        exact h1
      · by_cases hfetch : fetch (normalizePdfLink l) = true
        · have h1 : downloadPdf entry directory fs fetch
              = (some (derivedPdfPath entry directory),
                 derivedPdfPath entry directory :: fs, 1) := by
            simp [downloadPdf, hbase, hfl, hlne, hmem, hfetch]
          rw [h1] at hp
          simp only [Option.some.injEq] at hp
          subst hp
          rw [h1]
          simp [downloadPdf, hbase, hfl, hlne, List.mem_cons_self]
        · have h1 : downloadPdf entry directory fs fetch = (none, fs, 1) := by
            simp [downloadPdf, hbase, hfl, hlne, hmem, hfetch]
          rw [h1] at hp
          simp at hp

/-- Witness for C5 (amended): with the sample entry and its derived path
already on disk, the download returns that path, leaves the filesystem
unchanged, and performs zero fetches. -/
theorem downloadPdf_idempotent_witness :
    downloadPdf sampleEntry "arxiv_downloads"
        [derivedPdfPath sampleEntry "arxiv_downloads"] (fun _ => false)
      = (some (derivedPdfPath sampleEntry "arxiv_downloads"),
         [derivedPdfPath sampleEntry "arxiv_downloads"], 0) :=
  (downloadPdf_idempotent sampleEntry "arxiv_downloads"
      [derivedPdfPath sampleEntry "arxiv_downloads"] (fun _ => false)).1
    (by decide)
    ⟨"http://arxiv.org/pdf/1234.5678v1", by decide, by decide⟩
    (List.mem_singleton.mpr rfl)

/-- `lookupD` after `insertD` at the same key finds the inserted value. -/
theorem lookupD_insertD_self {α β : Type} [DecidableEq α]
    (l : List (α × β)) (k : α) (v : β) :
    lookupD (insertD l k v) k = some v := by
  induction l with
  | nil => simp [insertD, lookupD]
  | cons hd tl ih =>
    obtain ⟨k0, v0⟩ := hd
    by_cases h : k0 = k
    · simp [insertD, h, lookupD]
    · simp [insertD, h, lookupD, ih]

/-- `lookupD` after `eraseD` at the same key finds nothing. -/
theorem lookupD_eraseD_self {α β : Type} [DecidableEq α]
    (l : List (α × β)) (k : α) :
    lookupD (eraseD l k) k = none := by
  induction l with
  | nil => simp [eraseD, lookupD]
  | cons hd tl ih =>
    obtain ⟨k0, v0⟩ := hd
    by_cases h : k0 = k
    · simp [eraseD, h, ih]
    · simp [eraseD, h, lookupD, ih]

/-- The polling loop of `upload_pdf_to_gemini` (gemini_client.py lines
141-149): while the state is PROCESSING, fetch the next state; a `none`
poll entry models `genai.get_file` raising (the surrounding except then
yields no file).  The poll trace is a finite list; exhausting it while
still PROCESSING also yields no file. -/
def pollFileState : GeminiFile → List (Option GeminiFile) → Option GeminiFile
  | f, [] => if f.state_name = "PROCESSING" then none else some f
  | f, p :: rest =>
    if f.state_name = "PROCESSING" then
      match p with
      | none => none
      | some g => pollFileState g rest
    else some f

/-- Embedding of `upload_pdf_to_gemini` (gemini_client.py lines 110-180):
`initial` is the result of `genai.upload_file` (`none` models an
exception), `polls` the successive `get_file` answers.  A final state
other than ACTIVE triggers a best-effort remote delete and returns no
file. -/
def uploadPdfToGemini (initial : Option GeminiFile)
    (polls : List (Option GeminiFile)) : Option GeminiFile :=
  match initial with
  | none => none
  | some f =>
    match pollFileState f polls with
    | none => none
    | some final => if final.state_name = "ACTIVE" then some final else none

/-- `upload_pdf_to_gemini` only ever hands back an ACTIVE file. -/
theorem uploadPdfToGemini_active (initial : Option GeminiFile)
    (polls : List (Option GeminiFile)) (f : GeminiFile)
    (h : uploadPdfToGemini initial polls = some f) :
    f.state_name = "ACTIVE" := by
  cases initial with
  | none => simp [uploadPdfToGemini] at h
  | some g =>
    cases hp : pollFileState g polls with
    | none => simp [uploadPdfToGemini, hp] at h
    | some final =>
      by_cases hs : final.state_name = "ACTIVE"
      · simp only [uploadPdfToGemini, hp, if_pos hs, Option.some.injEq] at h
        rw [← h]
        exact hs
      · simp [uploadPdfToGemini, hp, hs] at h

/-- The tail of `_get_or_upload_gemini_file` after `upload_pdf_to_gemini`
returns (main.py lines 77-83): an ACTIVE result is cached and returned,
anything else evicts the cache entry and returns no file. -/
def recordUploadResult (pdf_filepath : String)
    (files : List (String × GeminiFile)) (uploaded : Option GeminiFile) :
    Option GeminiFile × List (String × GeminiFile) :=
  match uploaded with
  | some u =>
    if u.state_name = "ACTIVE" then (some u, insertD files pdf_filepath u)
    else (none, eraseD files pdf_filepath)
  | none => (none, eraseD files pdf_filepath)

/-- Embedding of `_get_or_upload_gemini_file` (main.py lines 60-83).
`files` is `state.gemini_uploaded_files`; `refresh` models
`genai.get_file` on the cached name (`none` = the call raised); `upload`
models `upload_pdf_to_gemini` for the path.  Returns the file handed back,
the map afterwards, and how many uploads were issued.  A stale cached
handle additionally gets a best-effort remote `delete_file`, which touches
no local state. -/
def getOrUploadGeminiFile (pdf_filepath : String)
    (files : List (String × GeminiFile))
    (refresh : String → Option GeminiFile)
    (upload : String → Option GeminiFile) :
    Option GeminiFile × List (String × GeminiFile) × Nat :=
  match lookupD files pdf_filepath with
  | some existing =>
    match refresh existing.name with
    | some refreshed =>
      if refreshed.state_name = "ACTIVE" then (some refreshed, files, 0)
      else
        let r := recordUploadResult pdf_filepath files (upload pdf_filepath)
        (r.1, r.2, 1)
    | none =>
      let r := recordUploadResult pdf_filepath files (upload pdf_filepath)
      (r.1, r.2, 1)
  | none =>
    let r := recordUploadResult pdf_filepath files (upload pdf_filepath)
    (r.1, r.2, 1)

/-- C7: for a cached handle whose re-validated remote state is not ACTIVE,
`ensureUploaded` issues exactly one re-upload; when the re-upload ends
ACTIVE the cache entry is overwritten with the new handle, and when it
ends in a failure (no file, or a non-ACTIVE file) the cache entry is
removed. -/
theorem getOrUpload_stale_reuploads (pdf_filepath : String)
    (files : List (String × GeminiFile))
    (refresh upload : String → Option GeminiFile)
    (existing refreshed : GeminiFile)
    (hcached : lookupD files pdf_filepath = some existing)
    (hrefresh : refresh existing.name = some refreshed)
    (hstale : refreshed.state_name ≠ "ACTIVE") :
    ((getOrUploadGeminiFile pdf_filepath files refresh upload).2.2 = 1)
    ∧ (∀ u, upload pdf_filepath = some u → u.state_name = "ACTIVE" →
        (getOrUploadGeminiFile pdf_filepath files refresh upload).1 = some u
        ∧ lookupD (getOrUploadGeminiFile pdf_filepath files refresh upload).2.1
            pdf_filepath = some u)
    ∧ ((upload pdf_filepath = none
        ∨ ∃ u, upload pdf_filepath = some u ∧ u.state_name ≠ "ACTIVE") →
        (getOrUploadGeminiFile pdf_filepath files refresh upload).1 = none
        ∧ lookupD (getOrUploadGeminiFile pdf_filepath files refresh upload).2.1
            pdf_filepath = none) := by
  refine ⟨?_, ?_, ?_⟩
  · simp [getOrUploadGeminiFile, hcached, hrefresh, hstale]
  · intro u hu hua
    simp only [getOrUploadGeminiFile, hcached, hrefresh, if_neg hstale]
    simp [recordUploadResult, hu, hua, lookupD_insertD_self]
  · intro hfail
    simp only [getOrUploadGeminiFile, hcached, hrefresh, if_neg hstale]
    cases hfail with
    | inl hnone => simp [recordUploadResult, hnone, lookupD_eraseD_self]
    | inr hex =>
      obtain ⟨u, hu, hua⟩ := hex
      simp [recordUploadResult, hu, hua, lookupD_eraseD_self]

/-- A concrete one-entry upload cache for the C7 witness. -/
def c7files : List (String × GeminiFile) :=
  [("a.pdf", { name := "files/old", state_name := "ACTIVE" })]

/-- A refresh oracle that reports the cached handle as FAILED. -/
def c7refresh : String → Option GeminiFile :=
  fun _ => some { name := "files/old", state_name := "FAILED" }

/-- An upload oracle that succeeds with a fresh ACTIVE handle. -/
def c7uploadOk : String → Option GeminiFile :=
  fun _ => some { name := "files/new", state_name := "ACTIVE" }

/-- An upload oracle that fails. -/
def c7uploadErr : String → Option GeminiFile :=
  fun _ => none

/-- Witness for C7: a cached ACTIVE handle whose refresh comes back FAILED
is re-uploaded exactly once, and the cache ends holding the new ACTIVE
handle; with an upload that fails instead, the entry is removed. -/
theorem getOrUpload_stale_reuploads_witness :
    (getOrUploadGeminiFile "a.pdf" c7files c7refresh c7uploadOk).2.2 = 1
    ∧ lookupD (getOrUploadGeminiFile "a.pdf" c7files c7refresh
        c7uploadOk).2.1 "a.pdf"
        = some { name := "files/new", state_name := "ACTIVE" }
    ∧ lookupD (getOrUploadGeminiFile "a.pdf" c7files c7refresh
        c7uploadErr).2.1 "a.pdf" = none :=
  ⟨(getOrUpload_stale_reuploads "a.pdf" c7files c7refresh c7uploadOk
      { name := "files/old", state_name := "ACTIVE" }
      { name := "files/old", state_name := "FAILED" } rfl rfl (by decide)).1,
   ((getOrUpload_stale_reuploads "a.pdf" c7files c7refresh c7uploadOk
      { name := "files/old", state_name := "ACTIVE" }
      { name := "files/old", state_name := "FAILED" } rfl rfl (by decide)).2.1
      { name := "files/new", state_name := "ACTIVE" } rfl (by decide)).2,
   ((getOrUpload_stale_reuploads "a.pdf" c7files c7refresh c7uploadErr
      { name := "files/old", state_name := "ACTIVE" }
      { name := "files/old", state_name := "FAILED" } rfl rfl (by decide)).2.2
      (Or.inl rfl)).2⟩

/-- Python `s.replace("\n", " ")` for the single-character pattern used in
`format_citation`. -/
def pyReplaceNlSpace (s : String) : String :=
  String.mk (s.data.map (fun c => if c = '\n' then ' ' else c))

/-- Python `s.strip()` (whitespace from both ends). -/
def pyStrip (s : String) : String :=
  String.mk
    (((s.data.dropWhile Char.isWhitespace).reverse.dropWhile
      Char.isWhitespace).reverse)

/-- Numeric value of a digit string. -/
def digitsToNat (cs : List Char) : Nat :=
  cs.foldl (fun acc c => acc * 10 + (c.toNat - 48)) 0

/-- Day count of a month, with the Gregorian leap rule, as
`datetime.strptime` validates it. -/
def daysInMonth (y m : Nat) : Nat :=
  if m = 2 then
    if (y % 4 = 0 ∧ y % 100 ≠ 0) ∨ y % 400 = 0 then 29 else 28
  else if m = 4 ∨ m = 6 ∨ m = 9 ∨ m = 11 then 30 else 31

/-- `datetime.strptime(s, "%Y-%m-%dT%H:%M:%SZ")` reduced to the year it
yields: `some year` exactly when the string matches the format and all
fields are in range, `none` when strptime raises ValueError. -/
def strptimeArxivYear (s : String) : Option Nat :=
  match s.data with
  | [y1, y2, y3, y4, '-', m1, m2, '-', d1, d2, 'T',
     h1, h2, ':', n1, n2, ':', s1, s2, 'Z'] =>
    if ([y1, y2, y3, y4, m1, m2, d1, d2, h1, h2, n1, n2, s1, s2].all
        Char.isDigit) then
      let y := digitsToNat [y1, y2, y3, y4]
      let mo := digitsToNat [m1, m2]
      let d := digitsToNat [d1, d2]
      let h := digitsToNat [h1, h2]
      let mi := digitsToNat [n1, n2]
      let se := digitsToNat [s1, s2]
      if 1 ≤ y ∧ 1 ≤ mo ∧ mo ≤ 12 ∧ 1 ≤ d ∧ d ≤ daysInMonth y mo
          ∧ h ≤ 23 ∧ mi ≤ 59 ∧ se ≤ 59 then some y
      else none
    else none
  | _ => none

/-- The year component `format_citation` interpolates (citation_utils.py
lines 41-51): the year of a successful strptime, else the prefix before
the first dash, else the literal "Unknown Year". -/
def pubYearString (published : String) : String :=
  match strptimeArxivYear published with
  | some y => toString y
  | none =>
    if published.data.contains '-' then (pySplit "-" published).headD ""
    else "Unknown Year"

/-- The author-string cases of `format_apa` (citation_utils.py lines
119-128): one author verbatim, two joined by an ampersand, three or more
as first author et al., empty as Unknown Author. -/
def apaAuthorString : List String → String
  | [] => "Unknown Author"
  | [a] => a
  | [a, b] => a ++ " & " ++ b
  | a :: _ => a ++ " et al."

/-- Embedding of `format_apa` (citation_utils.py lines 117-145).  The
concatenations are grouped as author string followed by the rest; string
concatenation is associative so the value is that of the source.  The
`month` argument is accepted and ignored exactly as in the source. -/
def formatApa (title : String) (authors : List String)
    (year month url doi journal_ref : String) : String :=
  let author_str := apaAuthorString authors
  let tail0 := ". (" ++ year ++ "). " ++ title ++ "."
  let tail1 :=
    if journal_ref ≠ "" then tail0 ++ " " ++ journal_ref ++ "."
    else tail0 ++ " arXiv preprint."
  let tail2 :=
    if doi ≠ "" then tail1 ++ " https://doi.org/" ++ doi
    else if url ≠ "" then tail1 ++ " Retrieved from " ++ url
    else tail1
  author_str ++ tail2

/-- The `format_citation(entry, "apa")` path (citation_utils.py lines
27-64): field extraction with the `dict.get` defaults of the source,
followed by the apa formatter.  The month name is passed but unused by
`format_apa`, so a fixed placeholder stands in for `strftime` output. -/
def formatCitationApa (entry : Entry) : String :=
  let title := pyStrip (pyReplaceNlSpace (entry.title.getD "Unknown Title"))
  let arxiv_id := arxivIdFull entry
  let arxiv_url := entry.link.getD ("https://arxiv.org/abs/" ++ arxiv_id)
  let authors := (entry.authors.getD []).map
    (fun x => x.name.getD "Unknown Author")
  let pub_year := pubYearString (entry.published.getD "")
  let doi := entry.arxiv_doi.getD ""
  let journal_ref := entry.arxiv_journal_ref.getD ""
  formatApa title authors pub_year "January" arxiv_url doi journal_ref

/-- The surname of an author name in the sense the source itself uses in
`format_ieee` (`name.split()[-1]`): the last whitespace-separated token. -/
def lastNameOf (name : String) : String :=
  ((pySplit " " name).filter (fun t => t ≠ "")).getLastD name

/-- A string is a Python-prefix of itself. -/
theorem pyStartsWith_refl (a : String) : pyStartsWith a a = true := by
  unfold pyStartsWith
  rw [List.isPrefixOf_iff_prefix]

/-- Appending on the right preserves a Python-prefix. -/
theorem pyStartsWith_append_right (a b c : String)
    (h : pyStartsWith a b = true) : pyStartsWith a (b ++ c) = true := by
  unfold pyStartsWith at h ⊢
  rw [List.isPrefixOf_iff_prefix] at h ⊢
  rw [String.data_append]
  exact h.trans (List.prefix_append _ _)

/-- A string Python-starts with its own leading append component. -/
theorem pyStartsWith_append_self (a b : String) :
    pyStartsWith a (a ++ b) = true :=
  pyStartsWith_append_right a a b (pyStartsWith_refl a)

/-- A string Python-ends with its own trailing append component. -/
theorem pyEndsWith_append_self (a b : String) :
    pyEndsWith b (a ++ b) = true := by
  unfold pyEndsWith
  rw [List.isSuffixOf_iff_suffix, String.data_append]
  exact List.suffix_append _ _

/-- Prepending on the left preserves a Python-suffix. -/
theorem pyEndsWith_append_left (a b c : String)
    (h : pyEndsWith a c = true) : pyEndsWith a (b ++ c) = true := by
  unfold pyEndsWith at h ⊢
  rw [List.isSuffixOf_iff_suffix] at h ⊢
  rw [String.data_append]
  exact h.trans (List.suffix_append _ _)

/-- The apa author string starts with the first author name verbatim. -/
theorem apaAuthorString_startsWith (nm : String) (names : List String) :
    pyStartsWith nm (apaAuthorString (nm :: names)) = true := by
  cases names with
  | nil => exact pyStartsWith_refl nm
  | cons b rest2 =>
    cases rest2 with
    | nil =>
      exact pyStartsWith_append_right _ _ _ (pyStartsWith_append_self nm " & ")
    | cons c rest3 => exact pyStartsWith_append_self nm " et al."

/-- The apa string ends with the DOI when one is present, otherwise with
the URL when that is non-empty. -/
theorem formatApa_endsWith (t : String) (authors : List String)
    (yr mo url doi jr : String) :
    (doi ≠ "" → pyEndsWith doi (formatApa t authors yr mo url doi jr) = true)
    ∧ (doi = "" → url ≠ "" →
        pyEndsWith url (formatApa t authors yr mo url doi jr) = true) := by
  constructor
  · intro hdoi
    simp only [formatApa]
    rw [if_pos hdoi]
    exact pyEndsWith_append_left _ _ _ (pyEndsWith_append_self _ _)
  · intro hdoi hurl
    simp only [formatApa]
    rw [if_neg (by simp [hdoi]), if_pos hurl]
    exact pyEndsWith_append_left _ _ _ (pyEndsWith_append_self _ _)

/-- C8 counterexample: for the sample entry — one author "Ada Lovelace",
a parseable published year and an abstract-page link — the apa citation
does not start with the surname ("Lovelace", in the sense of the
`name.split()[-1]` convention the source itself uses in `format_ieee`):
`format_apa` keeps the full name in given-name-first order. -/
theorem formatCitationApa_not_surname_first :
    lastNameOf "Ada Lovelace" = "Lovelace"
    ∧ (sampleEntry.authors.getD []).map (fun x => x.name.getD "Unknown Author")
        = ["Ada Lovelace"]
    ∧ strptimeArxivYear (sampleEntry.published.getD "") = some 2023
    ∧ sampleEntry.link = some "http://arxiv.org/abs/1234.5678v1"
    ∧ pyStartsWith "Lovelace" (formatCitationApa sampleEntry) = false := by
  decide

/-- C8 (amended): for an entry with at least one author whose name is
present, a published date that strptime parses, and a non-empty
abstract-page link, the apa citation starts with the first author name
exactly as listed (which ends in the surname for western-order names) and
ends with the DOI when one is present, otherwise with the abstract-page
link. -/
theorem formatCitationApa_shape (entry : Entry) (a : Author)
    (rest : List Author) (nm l : String) (y : Nat)
    (hauth : entry.authors = some (a :: rest))
    (hnm : a.name = some nm)
    (hlink : entry.link = some l)
    (hl : l ≠ "")
    (hyear : strptimeArxivYear (entry.published.getD "") = some y) :
    pyStartsWith nm (formatCitationApa entry) = true
    ∧ (entry.arxiv_doi.getD "" ≠ "" →
        pyEndsWith (entry.arxiv_doi.getD "") (formatCitationApa entry) = true)
    ∧ (entry.arxiv_doi.getD "" = "" →
        pyEndsWith l (formatCitationApa entry) = true) := by
  have hres : formatCitationApa entry
      = formatApa (pyStrip (pyReplaceNlSpace (entry.title.getD "Unknown Title")))
          (nm :: rest.map (fun x => x.name.getD "Unknown Author"))
          (pubYearString (entry.published.getD "")) "January"
          l (entry.arxiv_doi.getD "") (entry.arxiv_journal_ref.getD "") := by
    simp only [formatCitationApa, hauth, hlink, hnm, Option.getD_some,
      List.map_cons]
  rw [hres]
  refine ⟨?_, ?_, ?_⟩
  · simp only [formatApa]
    exact pyStartsWith_append_right _ _ _
      (apaAuthorString_startsWith nm (rest.map (fun x => x.name.getD "Unknown Author")))
  · intro hdoi
    exact (formatApa_endsWith _ _ _ _ _ _ _).1 hdoi
  · intro hdoi
    exact (formatApa_endsWith _ _ _ _ _ _ _).2 hdoi hl

/-- Witness for C8 (amended) at the sample entry (no DOI): the citation
starts with "Ada Lovelace" and ends with the abstract-page link. -/
theorem formatCitationApa_shape_witness :
    pyStartsWith "Ada Lovelace" (formatCitationApa sampleEntry) = true
    ∧ pyEndsWith "http://arxiv.org/abs/1234.5678v1"
        (formatCitationApa sampleEntry) = true :=
  ⟨(formatCitationApa_shape sampleEntry { name := some "Ada Lovelace" } []
      "Ada Lovelace" "http://arxiv.org/abs/1234.5678v1" 2023
      rfl rfl rfl (by decide) (by decide)).1,
   (formatCitationApa_shape sampleEntry { name := some "Ada Lovelace" } []
      "Ada Lovelace" "http://arxiv.org/abs/1234.5678v1" 2023
      rfl rfl rfl (by decide) (by decide)).2.2 rfl⟩

/-- Python `s.lower()`. -/
def pyLower (s : String) : String :=
  String.mk (s.data.map Char.toLower)

/-- Outcome of one execution of the interactive download command. -/
inductive DownloadOutcome
  | noResults
  | cancelled
  | completed
deriving DecidableEq

/-- The per-number loop of the interactive download command (main.py
lines 217-227): resolve each display number against the current page,
skip unresolvable ones, call `download_pdf` for the rest and record
successes in `downloaded_pdfs`. -/
def downloadLoop (fetch : String → Bool) :
    List Int → AppState → List String → AppState × List String
  | [], state, fs => (state, fs)
  | num :: rest, state, fs =>
    match getEntryFromResults state.last_results_feed num with
    | some entry =>
      let r := downloadPdf entry "arxiv_downloads" fs fetch
      match r.1 with
      | some path =>
        downloadLoop fetch rest
          { state with downloaded_pdfs := insertD state.downloaded_pdfs num path }
          r.2.1
      | none => downloadLoop fetch rest state r.2.1
    | none => downloadLoop fetch rest state fs

/-- Embedding of the interactive download command (main.py lines 197-234)
after the argument string has parsed into `paper_nums`.  `confirm` is the
raw answer read by `input()` when more than 20 numbers were given; the
code strips and lowercases it and cancels on anything but "y".  Returns
the outcome, state, filesystem, and whether the confirmation prompt was
shown. -/
def downloadCommand (state : AppState) (paper_nums : List Int)
    (confirm : String) (fs : List String) (fetch : String → Bool) :
    DownloadOutcome × AppState × List String × Bool :=
  match state.last_results_feed with
  | none => (.noResults, state, fs, false)
  | some f =>
    if f.entries = [] then (.noResults, state, fs, false)
    else if 20 < paper_nums.length then
      if pyLower (pyStrip confirm) ≠ "y" then (.cancelled, state, fs, true)
      else
        let r := downloadLoop fetch paper_nums state fs
        (.completed, r.1, r.2, true)
    else
      let r := downloadLoop fetch paper_nums state fs
      (.completed, r.1, r.2, false)

/-- Twenty-one display numbers, for exercising the confirmation prompt. -/
def c10nums : List Int :=
  [1, 2, 3, 4, 5, 6, 7, 8, 9, 10, 11, 12, 13, 14, 15, 16, 17, 18, 19, 20, 21]

/-- C10 counterexample: with 21 numbers, the raw confirmation answer "Y"
differs from "y", yet the batch is NOT cancelled — it proceeds, prompts
included, and records a download (the code cancels only when the
stripped, lowercased answer differs from "y"). -/
theorem downloadCommand_uppercase_confirm_proceeds :
    "Y" ≠ "y"
    ∧ 20 < c10nums.length
    ∧ (downloadCommand sampleState c10nums "Y" [] (fun _ => true)).1
        = DownloadOutcome.completed
    ∧ (downloadCommand sampleState c10nums "Y" []
        (fun _ => true)).2.1.downloaded_pdfs ≠ [] := by
  decide

/-- C10 (amended): with a results page loaded, a batch of more than 20
numbers prompts for confirmation and any answer whose stripped, lowercased
form differs from "y" cancels the whole batch with the session state and
filesystem untouched; a batch of at most 20 numbers runs without any
confirmation prompt. -/
theorem downloadCommand_confirmation (state : AppState) (f : Feed)
    (paper_nums : List Int) (confirm : String) (fs : List String)
    (fetch : String → Bool)
    (hf : state.last_results_feed = some f) (hne : f.entries ≠ []) :
    (20 < paper_nums.length → pyLower (pyStrip confirm) ≠ "y" →
      downloadCommand state paper_nums confirm fs fetch
        = (.cancelled, state, fs, true))
    ∧ (20 < paper_nums.length →
      (downloadCommand state paper_nums confirm fs fetch).2.2.2 = true)
    ∧ (paper_nums.length ≤ 20 →
      (downloadCommand state paper_nums confirm fs fetch).2.2.2 = false) := by
  refine ⟨?_, ?_, ?_⟩
  · intro hlen hval
    simp only [downloadCommand, hf, hne, if_false, if_pos hlen, if_pos hval]
  · intro hlen
    simp only [downloadCommand, hf, hne, if_false, if_pos hlen]
    by_cases hval : pyLower (pyStrip confirm) ≠ "y"
    · rw [if_pos hval]
    · rw [if_neg hval]
  · intro hlen
    simp only [downloadCommand, hf, hne, if_false]
    rw [if_neg (by omega)]

/-- Witness for C10 (amended): 21 numbers with answer "n" cancel with the
state unchanged, and a single number prompts nothing. -/
theorem downloadCommand_confirmation_witness :
    downloadCommand sampleState c10nums "n" [] (fun _ => true)
      = (.cancelled, sampleState, [], true)
    ∧ (downloadCommand sampleState [1] "" [] (fun _ => true)).2.2.2 = false :=
  ⟨(downloadCommand_confirmation sampleState sampleFeed c10nums "n" []
      (fun _ => true) rfl (by decide)).1 (by decide) (by decide),
   (downloadCommand_confirmation sampleState sampleFeed [1] "" []
      (fun _ => true) rfl (by decide)).2.2 (by decide)⟩

/-- The keys of `comparison_utils.COMPARISON_TYPES`. -/
def comparisonTypes : List String := ["general", "methods", "results", "impact"]

/-- Remote-call events a compare command emits, in execution order. -/
inductive Event
  | downloadCall (n : Int)
  | uploadEnsure (p : String)
  | compareCall (k : Nat)
deriving DecidableEq

/-- Outcome of a compare command. -/
inductive CompareOutcome
  | geminiDisabled
  | tooFewNumbers
  | invalidType
  | papersNotDownloaded (missing : List Int)
  | lookupFault
  | notEnoughValidFiles
  | compared
deriving DecidableEq

/-- The per-paper loop of the interactive compare handler (main.py lines
358-373): index the recorded path (a duplicate number whose entry was
evicted earlier in this very loop raises KeyError, modelled as the `none`
first component), evict map entries for vanished files, otherwise ensure
the Gemini upload and collect the file object. -/
def compareLoopInteractive (fs : List String)
    (refresh upload : String → Option GeminiFile) :
    List Int → AppState → List GeminiFile → List Event →
    Option (List GeminiFile) × AppState × List Event
  | [], state, objs, evts => (some objs, state, evts)
  | n :: rest, state, objs, evts =>
    match lookupD state.downloaded_pdfs n with
    | none => (none, state, evts)
    | some path =>
      if path ∈ fs then
        let r := getOrUploadGeminiFile path state.gemini_uploaded_files
          refresh upload
        let state1 := { state with gemini_uploaded_files := r.2.1 }
        let evts1 := evts ++ [Event.uploadEnsure path]
        match r.1 with
        | some u =>
          compareLoopInteractive fs refresh upload rest state1 (objs ++ [u]) evts1
        | none => compareLoopInteractive fs refresh upload rest state1 objs evts1
      else
        compareLoopInteractive fs refresh upload rest
          { state with
            downloaded_pdfs := eraseD state.downloaded_pdfs n
            gemini_uploaded_files := eraseD state.gemini_uploaded_files path }
          objs evts

/-- Embedding of the interactive compare command (main.py lines 324-388)
after argument parsing has produced the numbers and the type string.
Papers that are not in `downloaded_pdfs` make the command abort with a
message before any download, upload or comparison happens. -/
def compareCommandInteractive (state : AppState) (fs : List String)
    (paper_nums : List Int) (comparison_type : String)
    (refresh upload : String → Option GeminiFile) :
    CompareOutcome × AppState × List Event :=
  if state.gemini_enabled = false then (.geminiDisabled, state, [])
  else if paper_nums.length < 2 then (.tooFewNumbers, state, [])
  else if comparison_type ∈ comparisonTypes then
    if paper_nums.filter
        (fun n => (lookupD state.downloaded_pdfs n).isNone) ≠ [] then
      (.papersNotDownloaded
        (paper_nums.filter (fun n => (lookupD state.downloaded_pdfs n).isNone)),
       state, [])
    else
      match compareLoopInteractive fs refresh upload paper_nums state [] [] with
      | (none, state1, evts) => (.lookupFault, state1, evts)
      | (some objs, state1, evts) =>
        if objs.length < 2 then (.notEnoughValidFiles, state1, evts)
        else (.compared, state1, evts ++ [Event.compareCall objs.length])
  else (.invalidType, state, [])

/-- The per-paper loop of the non-interactive `--compare` path (main.py
lines 771-799): resolve the entry, look up a cached download (an empty
recorded path is falsy and treated as not downloaded), download when
missing, then ensure the Gemini upload; failures skip the paper. -/
def compareLoopBatch (feed : Option Feed) (download_dir : String)
    (fetch : String → Bool) (refresh upload : String → Option GeminiFile) :
    List Int → AppState → List String → List GeminiFile → List Event →
    AppState × List String × List GeminiFile × List Event
  | [], state, fs, objs, evts => (state, fs, objs, evts)
  | n :: rest, state, fs, objs, evts =>
    match getEntryFromResults feed n with
    | none =>
      compareLoopBatch feed download_dir fetch refresh upload rest
        state fs objs evts
    | some entry =>
      match
        (match lookupD state.downloaded_pdfs n with
         | some p => if p = "" then none else some p
         | none => none) with
      | some path =>
        let r := getOrUploadGeminiFile path state.gemini_uploaded_files
          refresh upload
        let state1 := { state with gemini_uploaded_files := r.2.1 }
        let evts1 := evts ++ [Event.uploadEnsure path]
        match r.1 with
        | some u =>
          compareLoopBatch feed download_dir fetch refresh upload rest
            state1 fs (objs ++ [u]) evts1
        | none =>
          compareLoopBatch feed download_dir fetch refresh upload rest
            state1 fs objs evts1
      | none =>
        let evts1 := evts ++ [Event.downloadCall n]
        let d := downloadPdf entry download_dir fs fetch
        match d.1 with
        | none =>
          compareLoopBatch feed download_dir fetch refresh upload rest
            state d.2.1 objs evts1
        | some p1 =>
          let state1 := { state with
            downloaded_pdfs := insertD state.downloaded_pdfs n p1 }
          let r := getOrUploadGeminiFile p1 state1.gemini_uploaded_files
            refresh upload
          let state2 := { state1 with gemini_uploaded_files := r.2.1 }
          let evts2 := evts1 ++ [Event.uploadEnsure p1]
          match r.1 with
          | some u =>
            compareLoopBatch feed download_dir fetch refresh upload rest
              state2 d.2.1 (objs ++ [u]) evts2
          | none =>
            compareLoopBatch feed download_dir fetch refresh upload rest
              state2 d.2.1 objs evts2

/-- Embedding of the non-interactive `--compare` action (main.py lines
749-813).  A number list shorter than two only prints a warning there and,
being truthy, still enters the loop; the comparison itself runs only when
at least two file objects were collected. -/
def compareCommandBatch (state : AppState) (feed : Option Feed)
    (paper_nums : List Int) (comparison_type : String) (download_dir : String)
    (fs : List String) (fetch : String → Bool)
    (refresh upload : String → Option GeminiFile) :
    CompareOutcome × AppState × List String × List Event :=
  if state.gemini_enabled = false then (.geminiDisabled, state, fs, [])
  else if comparison_type ∈ comparisonTypes then
    if paper_nums = [] then (.tooFewNumbers, state, fs, [])
    else
      let r := compareLoopBatch feed download_dir fetch refresh upload
        paper_nums state fs [] []
      if 2 ≤ r.2.2.1.length then
        (.compared, r.1, r.2.1, r.2.2.2 ++ [Event.compareCall r.2.2.1.length])
      else (.notEnoughValidFiles, r.1, r.2.1, r.2.2.2)
  else (.invalidType, state, fs, [])

/-- A session holding paper 1 downloaded but not paper 2. -/
def c6state : AppState :=
  { sampleState with downloaded_pdfs := [(1, "arxiv_downloads/1234.5678v1.pdf")] }

/-- C6 counterexample: interactive `compare 1,2 methods` with paper 1
downloaded and paper 2 never downloaded does not download paper 2 first —
it aborts with a papers-not-downloaded message, emitting no download, no
upload and no comparison call. -/
theorem compareInteractive_refuses_missing :
    compareCommandInteractive c6state [] [1, 2] "methods" c7refresh c7uploadOk
      = (.papersNotDownloaded [2], c6state, []) := by
  decide

/-- C6 (amended): for `compare 1,2` with paper 1 recorded as downloaded
and paper 2 never downloaded, the non-interactive path first ensures paper
1 and then downloads paper 2 before anything else (the event trace starts
with exactly those two calls), makes no comparison call at all when paper
2's download fails, and places any comparison call last; the interactive
path instead aborts with the missing papers reported, the state unchanged
and no remote call at all. -/
theorem compare_downloads_missing_first (state : AppState) (feed : Option Feed)
    (download_dir : String) (fs : List String) (fetch : String → Bool)
    (refresh upload : String → Option GeminiFile)
    (ctype p1 : String) (e1 e2 : Entry)
    (hgem : state.gemini_enabled = true)
    (hct : ctype ∈ comparisonTypes)
    (h1 : lookupD state.downloaded_pdfs 1 = some p1)
    (hp1 : p1 ≠ "")
    (h2 : lookupD state.downloaded_pdfs 2 = none)
    (he1 : getEntryFromResults feed 1 = some e1)
    (he2 : getEntryFromResults feed 2 = some e2) :
    (∃ post,
      (compareCommandBatch state feed [1, 2] ctype download_dir fs fetch
        refresh upload).2.2.2
        = Event.uploadEnsure p1 :: Event.downloadCall 2 :: post)
    ∧ ((downloadPdf e2 download_dir fs fetch).1 = none →
        ∀ k, Event.compareCall k ∉
          (compareCommandBatch state feed [1, 2] ctype download_dir fs fetch
            refresh upload).2.2.2)
    ∧ (∀ k, Event.compareCall k ∈
          (compareCommandBatch state feed [1, 2] ctype download_dir fs fetch
            refresh upload).2.2.2 →
        ∃ pre,
          (compareCommandBatch state feed [1, 2] ctype download_dir fs fetch
            refresh upload).2.2.2 = pre ++ [Event.compareCall k])
    ∧ compareCommandInteractive state fs [1, 2] ctype refresh upload
        = (.papersNotDownloaded [2], state, []) := by
  have hint : compareCommandInteractive state fs [1, 2] ctype refresh upload
      = (.papersNotDownloaded [2], state, []) := by
    simp [compareCommandInteractive, hgem, hct, h1, h2]
  have hmain :
      (∃ post,
        (compareCommandBatch state feed [1, 2] ctype download_dir fs fetch
          refresh upload).2.2.2
          = Event.uploadEnsure p1 :: Event.downloadCall 2 :: post)
      ∧ ((downloadPdf e2 download_dir fs fetch).1 = none →
          ∀ k, Event.compareCall k ∉
            (compareCommandBatch state feed [1, 2] ctype download_dir fs fetch
              refresh upload).2.2.2)
      ∧ (∀ k, Event.compareCall k ∈
            (compareCommandBatch state feed [1, 2] ctype download_dir fs fetch
              refresh upload).2.2.2 →
          ∃ pre,
            (compareCommandBatch state feed [1, 2] ctype download_dir fs fetch
              refresh upload).2.2.2 = pre ++ [Event.compareCall k]) := by
    cases hr1 : (getOrUploadGeminiFile p1 state.gemini_uploaded_files
        refresh upload).1 with
    | none =>
      cases hd : (downloadPdf e2 download_dir fs fetch).1 with
      | none =>
        have htr : (compareCommandBatch state feed [1, 2] ctype download_dir
            fs fetch refresh upload).2.2.2
            = [Event.uploadEnsure p1, Event.downloadCall 2] := by
          simp [compareCommandBatch, compareLoopBatch, hgem, hct, he1, he2,
            h1, h2, hp1, hr1, hd]
        rw [htr]
        exact ⟨⟨[], rfl⟩, fun _ k hk => by simp at hk, fun k hk => by simp at hk⟩
      | some p2 =>
        cases hr2 : (getOrUploadGeminiFile p2
            (getOrUploadGeminiFile p1 state.gemini_uploaded_files refresh
              upload).2.1 refresh upload).1 with
        | none =>
          have htr : (compareCommandBatch state feed [1, 2] ctype download_dir
              fs fetch refresh upload).2.2.2
              = [Event.uploadEnsure p1, Event.downloadCall 2,
                 Event.uploadEnsure p2] := by
            simp [compareCommandBatch, compareLoopBatch, hgem, hct, he1, he2,
              h1, h2, hp1, hr1, hd, hr2]
          rw [htr]
          refine ⟨⟨[Event.uploadEnsure p2], rfl⟩, ?_, fun k hk => by simp at hk⟩
          intro h0
          simp at h0
        | some u2 =>
          have htr : (compareCommandBatch state feed [1, 2] ctype download_dir
              fs fetch refresh upload).2.2.2
              = [Event.uploadEnsure p1, Event.downloadCall 2,
                 Event.uploadEnsure p2] := by
            simp [compareCommandBatch, compareLoopBatch, hgem, hct, he1, he2,
              h1, h2, hp1, hr1, hd, hr2]
          rw [htr]
          refine ⟨⟨[Event.uploadEnsure p2], rfl⟩, ?_, fun k hk => by simp at hk⟩
          intro h0
          simp at h0
    | some u1 =>
      cases hd : (downloadPdf e2 download_dir fs fetch).1 with
      | none =>
        have htr : (compareCommandBatch state feed [1, 2] ctype download_dir
            fs fetch refresh upload).2.2.2
            = [Event.uploadEnsure p1, Event.downloadCall 2] := by
          simp [compareCommandBatch, compareLoopBatch, hgem, hct, he1, he2,
            h1, h2, hp1, hr1, hd]
        rw [htr]
        exact ⟨⟨[], rfl⟩, fun _ k hk => by simp at hk, fun k hk => by simp at hk⟩
      | some p2 =>
        cases hr2 : (getOrUploadGeminiFile p2
            (getOrUploadGeminiFile p1 state.gemini_uploaded_files refresh
              upload).2.1 refresh upload).1 with
        | none =>
          have htr : (compareCommandBatch state feed [1, 2] ctype download_dir
              fs fetch refresh upload).2.2.2
              = [Event.uploadEnsure p1, Event.downloadCall 2,
                 Event.uploadEnsure p2] := by
            simp [compareCommandBatch, compareLoopBatch, hgem, hct, he1, he2,
              h1, h2, hp1, hr1, hd, hr2]
          rw [htr]
          refine ⟨⟨[Event.uploadEnsure p2], rfl⟩, ?_, fun k hk => by simp at hk⟩
          intro h0
          simp at h0
        | some u2 =>
          have htr : (compareCommandBatch state feed [1, 2] ctype download_dir
              fs fetch refresh upload).2.2.2
              = [Event.uploadEnsure p1, Event.downloadCall 2,
                 Event.uploadEnsure p2, Event.compareCall 2] := by
            simp [compareCommandBatch, compareLoopBatch, hgem, hct, he1, he2,
              h1, h2, hp1, hr1, hd, hr2]
          rw [htr]
          refine ⟨⟨[Event.uploadEnsure p2, Event.compareCall 2], rfl⟩, ?_, ?_⟩
          · intro h0
            simp at h0
          · intro k hk
            simp only [List.mem_cons, List.mem_singleton] at hk
            rcases hk with hk | hk | hk | hk | hk
            · exact absurd hk (by simp)
            · exact absurd hk (by simp)
            · exact absurd hk (by simp)
            · cases hk
              exact ⟨[Event.uploadEnsure p1, Event.downloadCall 2,
                      Event.uploadEnsure p2], rfl⟩
            · exact absurd hk (by simp)
  exact ⟨hmain.1, hmain.2.1, hmain.2.2, hint⟩

/-- A second concrete entry, for a two-paper feed. -/
def sampleEntry2 : Entry :=
  { sampleEntry with
    id := some "http://arxiv.org/abs/2001.00001v2"
    title := some "Second Paper"
    link := some "http://arxiv.org/abs/2001.00001v2"
    links := some [{ title := some "pdf", ltype := some "application/pdf",
                     href := some "http://arxiv.org/pdf/2001.00001v2" }] }

/-- A two-entry feed for the C6 witness. -/
def c6feed2 : Feed :=
  { startindex := some 0, totalresults := some 10,
    entries := [sampleEntry, sampleEntry2] }

/-- Witness for C6 (amended): with paper 1 recorded, paper 2 missing and a
network where every fetch fails, the batch trace begins with the upload of
paper 1 followed by the download call for paper 2, no comparison call is
emitted, and the interactive command aborts reporting paper 2 missing. -/
theorem compare_downloads_missing_first_witness :
    (∃ post, (compareCommandBatch c6state (some c6feed2) [1, 2] "methods"
        "d" [] (fun _ => false) c7refresh c7uploadOk).2.2.2
        = Event.uploadEnsure "arxiv_downloads/1234.5678v1.pdf"
            :: Event.downloadCall 2 :: post)
    ∧ Event.compareCall 2 ∉ (compareCommandBatch c6state (some c6feed2)
        [1, 2] "methods" "d" [] (fun _ => false) c7refresh c7uploadOk).2.2.2
    ∧ compareCommandInteractive c6state [] [1, 2] "methods" c7refresh
        c7uploadOk = (.papersNotDownloaded [2], c6state, []) :=
  ⟨(compare_downloads_missing_first c6state (some c6feed2) "d" []
      (fun _ => false) c7refresh c7uploadOk "methods"
      "arxiv_downloads/1234.5678v1.pdf" sampleEntry sampleEntry2
      rfl (by decide) rfl (by decide) rfl (by decide) (by decide)).1,
   (compare_downloads_missing_first c6state (some c6feed2) "d" []
      (fun _ => false) c7refresh c7uploadOk "methods"
      "arxiv_downloads/1234.5678v1.pdf" sampleEntry sampleEntry2
      rfl (by decide) rfl (by decide) rfl (by decide) (by decide)).2.1
      (by decide) 2,
   (compare_downloads_missing_first c6state (some c6feed2) "d" []
      (fun _ => false) c7refresh c7uploadOk "methods"
      "arxiv_downloads/1234.5678v1.pdf" sampleEntry sampleEntry2
      rfl (by decide) rfl (by decide) rfl (by decide) (by decide)).2.2.2⟩

end ArxivApp
